import Mathlib

/-!
Shallow embedding of the traefik-modsecurity plugin's request-interception
pipeline (`ServeHTTP`, `isWebsocket`, `forwardResponse` and the health flag
of `Modsecurity`), together with proofs of the specification's claims.

The embedding models one request handled sequentially: the shared
`unhealthyWaf` flag is passed in as the state observed by this request, the
pooled buffer's previous contents are passed in explicitly, and the WAF
round-trip (`httpClient.Do`) is an oracle argument giving either a transport
failure or a response.  Bodies are byte lists; headers are association lists
mirroring Go's `http.Header` map with canonical keys.
-/

namespace ModsecPlugin

/-- A body byte. -/
abbrev Byte := Nat

/-- HTTP headers: association list from canonical field name to the list of
values, mirroring Go's `http.Header` map (keys are assumed canonical). -/
abbrev Header := List (String × List String)

/-- Go map access `h[key]`: the values stored under the key, `[]` when the
key is absent. -/
def Header.vals : Header → String → List String
  | [], _ => []
  | (k, vs) :: rest, key => if k = key then vs else Header.vals rest key

/-- Go `http.Header.Get`: the first value under the key, `""` when absent. -/
def Header.get (h : Header) (key : String) : String :=
  match Header.vals h key with
  | [] => ""
  | v :: _ => v

/-- Go map assignment `h[key] = vs`: replace the entry when present,
otherwise add it. -/
def Header.store : Header → String → List String → Header
  | [], key, vs => [(key, vs)]
  | (k, v) :: rest, key, vs =>
      if k = key then (k, vs) :: rest else (k, v) :: Header.store rest key vs

/-- Go `http.Header.Set`: store the single value `v` under the key. -/
def Header.set (h : Header) (key v : String) : Header := Header.store h key [v]

/-- Decimal digit run to a number; `none` on an empty run or a non-digit. -/
def parseDigitsAux : List Char → Nat → Option Nat
  | [], acc => some acc
  | c :: rest, acc =>
      if c.isDigit then parseDigitsAux rest (acc * 10 + (c.toNat - 48)) else none

/-- All-digit character list to a number; `none` when empty or invalid. -/
def parseDigits : List Char → Option Nat
  | [] => none
  | cs => parseDigitsAux cs 0

/-- Go `strconv.ParseInt(s, 10, 64)`: optional sign, decimal digits, int64
range check.  Any failure (empty string, bad digit, overflow) is an error in
Go and becomes `none` here. -/
def parseInt64 (s : String) : Option Int :=
  match s.data with
  | [] => none
  | c :: rest =>
    let signed : Bool × List Char :=
      if c = '-' then (true, rest)
      else if c = '+' then (false, rest)
      else (false, c :: rest)
    match parseDigits signed.2 with
    | none => none
    | some n =>
      let v : Int := if signed.1 then -(n : Int) else (n : Int)
      if -(2 ^ 63) ≤ v ∧ v ≤ 2 ^ 63 - 1 then some v else none

/-- An inbound HTTP request: method, raw request target, headers and the
body byte stream. -/
structure Request where
  method : String
  requestURI : String
  headers : Header
  body : List Byte
deriving DecidableEq

/-- The per-route middleware instance (struct `Modsecurity`): the
configuration fields consulted by `ServeHTTP`.  The HTTP client, logger and
mutex are not data the claims depend on; the `unhealthyWaf` flag is passed
to `serveHTTP` explicitly as the state this request observes. -/
structure Modsecurity where
  modSecurityUrl : String
  unhealthyWafBackOffPeriodSecs : Int
  modSecurityStatusRequestHeader : String
  maxBodySizeBytes : Int
  maxBodySizeBytesForPool : Int
  /-- The keys of the skip map: `createIgnoreBodyMap config.IgnoreBodyForVerbs`. -/
  ignoreBodyForVerbs : List String
  ignoreBodyForVerbsDeny : Bool
deriving DecidableEq

/-- `createIgnoreBodyMap`: the keys of the skip map built at construction
time, the upper-casing of every configured verb.  `New` stores its result in
the `ignoreBodyForVerbs` field of `Modsecurity`. -/
def createIgnoreBodyMap (verbs : List String) : List String :=
  verbs.map String.toUpper

/-- The map lookup `a.ignoreBodyForVerbs[req.Method]` on the field built by
`createIgnoreBodyMap`. -/
def ignoresBody (a : Modsecurity) (method : String) : Bool :=
  a.ignoreBodyForVerbs.contains method

/-- `isWebsocket`: exact, case-sensitive scan of the values of the
`Upgrade` header for the literal string `"websocket"`. -/
def isWebsocket (req : Request) : Bool :=
  (Header.vals req.headers "Upgrade").any (fun header => header == "websocket")

/-- Lines 192-199 of `ServeHTTP`: `usePool` starts `true`; when a
`Content-Length` header is present and parses as an int64 it becomes
`contentLength <= a.maxBodySizeBytesForPool`; a parse error leaves it
`true`. -/
def usePool (a : Modsecurity) (req : Request) : Bool :=
  let contentLengthStr := Header.get req.headers "Content-Length"
  if contentLengthStr ≠ "" then
    match parseInt64 contentLengthStr with
    | some contentLength => decide (contentLength ≤ a.maxBodySizeBytesForPool)
    | none => true
  else true

/-- `bytes.Buffer.Reset` on the pooled buffer: any bytes left from a
previous user are dropped. -/
def bufReset (_prev : List Byte) : List Byte := []

/-- `io.Copy` of the whole request stream into a `bytes.Buffer`: the stream
is appended to the buffer contents. -/
def bufCopy (buf stream : List Byte) : List Byte := buf ++ stream

/-- Result of the body-capture block (lines 184-251 of `ServeHTTP`).
`pooled` records which allocation branch produced the snapshot. -/
inductive CaptureResult where
  | skipped
  | tooLarge
  | captured (pooled : Bool) (bytes : List Byte)
deriving DecidableEq

/-- Lines 184-251 of `ServeHTTP`: skip body reading for skip-listed verbs;
otherwise wrap the stream in `http.MaxBytesReader` when `maxBodySizeBytes > 0`
(so reading more than the cap yields `*http.MaxBytesError`, the
`tooLarge` outcome) and read the whole stream either into a reset pooled
buffer or via `io.ReadAll`, according to `usePool`.  Generic I/O errors of
the inbound stream are not modelled: the inbound body here is a concrete
byte list that always reads successfully. -/
def captureBody (a : Modsecurity) (poolPrev : List Byte) (req : Request) :
    CaptureResult :=
  if ignoresBody a req.method then .skipped
  else if usePool a req then
    if decide (0 < a.maxBodySizeBytes) &&
       decide (a.maxBodySizeBytes < (req.body.length : Int)) then .tooLarge
    else .captured true (bufCopy (bufReset poolPrev) req.body)
  else
    if decide (0 < a.maxBodySizeBytes) &&
       decide (a.maxBodySizeBytes < (req.body.length : Int)) then .tooLarge
    else .captured false req.body

/-- What `ServeHTTP` finally does with the client connection. -/
inductive Outcome where
  /-- `a.next.ServeHTTP(rw, req)`: the backend collaborator is invoked with
  this (possibly tagged and body-restored) request. -/
  | backend (req : Request)
  /-- `http.Error(rw, _, status)`: the middleware writes its own error. -/
  | httpError (status : Nat)
  /-- `forwardResponse(resp, rw)`: the WAF's block response is relayed. -/
  | relay (status : Nat) (headers : Header) (body : List Byte)
deriving DecidableEq

/-- The oracle for `a.httpClient.Do(proxyReq)`. -/
inductive WafResult where
  | transportFailure
  | response (status : Nat) (headers : Header) (body : List Byte)
deriving DecidableEq

/-- Observable effects of one `ServeHTTP` call. -/
structure ServeOutcome where
  outcome : Outcome
  /-- `none` when no outbound WAF request was sent; `some b` when one was
  sent carrying body `b` (`b = none` is a nil body reader, used for
  skip-listed verbs). -/
  wafSent : Option (Option (List Byte))
  /-- Final headers of the inbound request: the diagnostic marker written by
  `req.Header.Set` is observable here (by access-log middleware). -/
  reqHeaders : Header
  /-- The `unhealthyWaf` flag after this request. -/
  unhealthyAfter : Bool
  /-- Whether this request armed the back-off recovery timer. -/
  timerArmed : Bool
deriving DecidableEq

/-- Lines 253-323 of `ServeHTTP`: build the outbound request (modelled as
always succeeding: the target is plain string concatenation and the header
copy is verbatim, so the `cannotforward` branch at lines 261-269 is not
reachable in this model), call the WAF oracle, and classify.

On transport failure with a positive back-off period the mutex-guarded block
at lines 279-294 runs: only when the flag is still clear does it set the
flag, tag the request `"error"` and arm the recovery timer; either way the
captured body is restored and the backend is invoked (fail-open).  With no
back-off the middleware answers 502 (fail-closed) without touching the
request headers.

On a response, status `>= 400` tags the request `"blocked"` and relays the
WAF response; otherwise the captured body is restored and the backend is
invoked. -/
def serveWaf (a : Modsecurity) (unhealthyWaf : Bool) (req : Request)
    (body : Option (List Byte)) (waf : WafResult) : ServeOutcome :=
  match waf with
  | .transportFailure =>
    if 0 < a.unhealthyWafBackOffPeriodSecs then
      let hdrs :=
        if !unhealthyWaf then
          if a.modSecurityStatusRequestHeader ≠ "" then
            Header.set req.headers a.modSecurityStatusRequestHeader "error"
          else req.headers
        else req.headers
      let restored : Request :=
        { req with headers := hdrs,
                   body := match body with | some b => b | none => req.body }
      { outcome := .backend restored, wafSent := some body, reqHeaders := hdrs,
        unhealthyAfter := true, timerArmed := !unhealthyWaf }
    else
      { outcome := .httpError 502, wafSent := some body,
        reqHeaders := req.headers, unhealthyAfter := unhealthyWaf,
        timerArmed := false }
  | .response status respHeaders respBody =>
    if 400 ≤ status then
      let hdrs :=
        if a.modSecurityStatusRequestHeader ≠ "" then
          Header.set req.headers a.modSecurityStatusRequestHeader "blocked"
        else req.headers
      { outcome := .relay status respHeaders respBody, wafSent := some body,
        reqHeaders := hdrs, unhealthyAfter := unhealthyWaf,
        timerArmed := false }
    else
      let restored : Request :=
        { req with body := match body with | some b => b | none => req.body }
      { outcome := .backend restored, wafSent := some body,
        reqHeaders := req.headers, unhealthyAfter := unhealthyWaf,
        timerArmed := false }

/-- `ServeHTTP` (lines 155-323): websocket bypass, degraded-mode bypass,
strict body validation for skip-listed verbs, body capture, then the WAF
round-trip via `serveWaf`. -/
def serveHTTP (a : Modsecurity) (unhealthyWaf : Bool) (poolPrev : List Byte)
    (req : Request) (waf : WafResult) : ServeOutcome :=
  if isWebsocket req then
    { outcome := .backend req, wafSent := none, reqHeaders := req.headers,
      unhealthyAfter := unhealthyWaf, timerArmed := false }
  else if unhealthyWaf then
    let hdrs :=
      if a.modSecurityStatusRequestHeader ≠ "" then
        Header.set req.headers a.modSecurityStatusRequestHeader "unhealthy"
      else req.headers
    { outcome := .backend { req with headers := hdrs }, wafSent := none,
      reqHeaders := hdrs, unhealthyAfter := unhealthyWaf, timerArmed := false }
  else if a.ignoreBodyForVerbsDeny && ignoresBody a req.method &&
          decide (req.body ≠ []) then
    { outcome := .httpError 400, wafSent := none, reqHeaders := req.headers,
      unhealthyAfter := unhealthyWaf, timerArmed := false }
  else
    match captureBody a poolPrev req with
    | .tooLarge =>
      let hdrs :=
        if a.modSecurityStatusRequestHeader ≠ "" then
          Header.set req.headers a.modSecurityStatusRequestHeader "blocked"
        else req.headers
      { outcome := .httpError 413, wafSent := none, reqHeaders := hdrs,
        unhealthyAfter := unhealthyWaf, timerArmed := false }
    | .skipped => serveWaf a unhealthyWaf req none waf
    | .captured _ bytes => serveWaf a unhealthyWaf req (some bytes) waf

/-- `forwardResponse`: copy every WAF response header onto the client writer
with Go map assignment `dst[k] = append(dst[k][:0], vv...)` (the values under
`k` become exactly `vv`, replacing any previous values), then write the WAF
status code, then copy the WAF body through.  The result is the final writer
headers, the status written, and the body bytes written. -/
def forwardResponse (respStatus : Nat) (respHeaders : Header)
    (respBody : List Byte) (rwHeaders : Header) : Header × Nat × List Byte :=
  (respHeaders.foldl (fun dst kv => Header.store dst kv.1 kv.2) rwHeaders,
   respStatus, respBody)

/-- The health tracker's shared state: the `unhealthyWaf` flag and the
number of pending `time.AfterFunc` recovery timers. -/
structure HealthState where
  unhealthyWaf : Bool
  pendingTimers : Nat
deriving DecidableEq

/-- The mutex-serialized atomic sections that touch the health state
(lines 279-294 of `ServeHTTP`): a failure report whose guard
`!a.unhealthyWaf` succeeds sets the flag and arms one recovery timer; a
failure report while already unhealthy changes nothing; a pending timer
fires, clearing the flag unconditionally. -/
inductive HealthStep : HealthState → HealthState → Prop where
  | reportFailureArm (s : HealthState) (h : s.unhealthyWaf = false) :
      HealthStep s { unhealthyWaf := true, pendingTimers := s.pendingTimers + 1 }
  | reportFailureNoop (s : HealthState) (h : s.unhealthyWaf = true) :
      HealthStep s s
  | timerFires (s : HealthState) (h : 0 < s.pendingTimers) :
      HealthStep s { unhealthyWaf := false, pendingTimers := s.pendingTimers - 1 }

/-- The health tracker starts healthy with no timer pending. -/
def initialHealth : HealthState := { unhealthyWaf := false, pendingTimers := 0 }

/-- States reachable from the initial health state by the serialized
sections above. -/
inductive HealthReachable : HealthState → Prop where
  | init : HealthReachable initialHealth
  | step {s t : HealthState} (hs : HealthReachable s) (st : HealthStep s t) :
      HealthReachable t

/-! ### Sample instances used by witnesses and counterexamples -/

/-- A sample middleware instance: the diagnostic header configured, `GET`
and `HEAD` skip-listed (as `createIgnoreBodyMap` would produce them), a
4-byte body cap and a 3-byte pool threshold. -/
def sampleCfg : Modsecurity :=
  { modSecurityUrl := "http://waf", unhealthyWafBackOffPeriodSecs := 0,
    modSecurityStatusRequestHeader := "X-Waf-Status", maxBodySizeBytes := 4,
    maxBodySizeBytesForPool := 3, ignoreBodyForVerbs := ["GET", "HEAD"],
    ignoreBodyForVerbsDeny := false }

/-- A sample `POST` with a two-byte body and no special headers. -/
def samplePost : Request :=
  { method := "POST", requestURI := "/x", headers := [], body := [1, 2] }

/-! ### Helper lemmas -/

theorem vals_store_self (h : Header) (k : String) (vs : List String) :
    Header.vals (Header.store h k vs) k = vs := by
  induction h with
  | nil => simp [Header.store, Header.vals]
  | cons kv rest ih =>
    obtain ⟨k0, v0⟩ := kv
    by_cases hk : k0 = k
    · simp [Header.store, hk, Header.vals]
    · simp [Header.store, hk, Header.vals, ih]

theorem vals_store_other (h : Header) (k k' : String) (vs : List String)
    (hne : k' ≠ k) :
    Header.vals (Header.store h k vs) k' = Header.vals h k' := by
  induction h with
  | nil =>
    simp only [Header.store, Header.vals]
    rw [if_neg (Ne.symm hne)]
  | cons kv rest ih =>
    obtain ⟨k0, v0⟩ := kv
    simp only [Header.store]
    by_cases hk : k0 = k
    · subst hk
      rw [if_pos rfl]
      simp only [Header.vals]
      rw [if_neg (Ne.symm hne), if_neg (Ne.symm hne)]
    · rw [if_neg hk]
      simp only [Header.vals]
      by_cases hk' : k0 = k'
      · rw [if_pos hk', if_pos hk']
      · rw [if_neg hk', if_neg hk', ih]

theorem get_set_self (h : Header) (k v : String) :
    Header.get (Header.set h k v) k = v := by
  simp [Header.get, Header.set, vals_store_self]

/-- The outbound WAF request is sent with exactly the captured body. -/
theorem serveWaf_wafSent (a : Modsecurity) (u : Bool) (req : Request)
    (body : Option (List Byte)) (waf : WafResult) :
    (serveWaf a u req body waf).wafSent = some body := by
  cases waf <;> simp only [serveWaf] <;> split <;> rfl

/-- Whenever `serveWaf` hands off to the backend, the backend request's body
is the captured snapshot (or the untouched stream when none was captured). -/
theorem serveWaf_backend_body (a : Modsecurity) (u : Bool) (req : Request)
    (body : Option (List Byte)) (waf : WafResult) (r : Request)
    (h : (serveWaf a u req body waf).outcome = .backend r) :
    r.body = body.getD req.body := by
  cases body <;> cases waf <;> simp only [serveWaf] at h <;> split at h <;>
    first
      | (rw [Outcome.backend.injEq] at h; subst h; rfl)
      | simp at h

/-- `serveWaf` never produces the middleware's own 413: its only
`httpError` is the fail-closed 502. -/
theorem serveWaf_ne_413 (a : Modsecurity) (u : Bool) (req : Request)
    (body : Option (List Byte)) (waf : WafResult) :
    (serveWaf a u req body waf).outcome ≠ .httpError 413 := by
  cases waf <;> simp only [serveWaf] <;> split <;> simp

/-- When the method is not skip-listed and the body does not exceed a
positive cap, capture succeeds and the snapshot is exactly the inbound
body, on whichever allocation path `usePool` selects. -/
theorem captureBody_ok (a : Modsecurity) (poolPrev : List Byte)
    (req : Request) (hskip : ignoresBody a req.method = false)
    (hcap : ¬(0 < a.maxBodySizeBytes ∧
              a.maxBodySizeBytes < (req.body.length : Int))) :
    captureBody a poolPrev req = .captured (usePool a req) req.body := by
  have hex : (decide (0 < a.maxBodySizeBytes) &&
      decide (a.maxBodySizeBytes < (req.body.length : Int))) = false := by
    rcases Classical.em (0 < a.maxBodySizeBytes) with h0 | h0
    · have h1 : ¬ a.maxBodySizeBytes < (req.body.length : Int) :=
        fun h1 => hcap ⟨h0, h1⟩
      simp [h1]
    · simp [h0]
  cases hp : usePool a req <;>
    simp [captureBody, hskip, hex, hp, bufCopy, bufReset]

/-- When the method is not skip-listed and the body exceeds a positive cap,
capture reports the `MaxBytesError` outcome on either allocation path. -/
theorem captureBody_tooLarge (a : Modsecurity) (poolPrev : List Byte)
    (req : Request) (hskip : ignoresBody a req.method = false)
    (h0 : 0 < a.maxBodySizeBytes)
    (hbig : a.maxBodySizeBytes < (req.body.length : Int)) :
    captureBody a poolPrev req = .tooLarge := by
  cases hp : usePool a req <;> simp [captureBody, hskip, h0, hbig, hp]

/-- Reduction of `serveHTTP` to the WAF round-trip once the websocket check,
the degraded-mode check and the strict-validation check have all passed and
the body capture produced a snapshot. -/
theorem serveHTTP_captured (a : Modsecurity) (poolPrev : List Byte)
    (req : Request) (waf : WafResult) (p : Bool) (bytes : List Byte)
    (hws : isWebsocket req = false)
    (hdeny : (a.ignoreBodyForVerbsDeny && ignoresBody a req.method &&
              decide (req.body ≠ [])) = false)
    (hcap : captureBody a poolPrev req = .captured p bytes) :
    serveHTTP a false poolPrev req waf = serveWaf a false req (some bytes) waf := by
  unfold serveHTTP
  rw [if_neg (by simp [hws]), if_neg (by simp),
    if_neg (fun hcond => by rw [hcond] at hdeny; exact Bool.noConfusion hdeny), hcap]

/-- Reduction of `serveHTTP` to the WAF round-trip with a nil body reader
when the capture step skipped the body. -/
theorem serveHTTP_skipped (a : Modsecurity) (poolPrev : List Byte)
    (req : Request) (waf : WafResult)
    (hws : isWebsocket req = false)
    (hdeny : (a.ignoreBodyForVerbsDeny && ignoresBody a req.method &&
              decide (req.body ≠ [])) = false)
    (hcap : captureBody a poolPrev req = .skipped) :
    serveHTTP a false poolPrev req waf = serveWaf a false req none waf := by
  unfold serveHTTP
  rw [if_neg (by simp [hws]), if_neg (by simp),
    if_neg (fun hcond => by rw [hcond] at hdeny; exact Bool.noConfusion hdeny), hcap]

/-! ### Claims -/

/-- C1: for every request whose method is not in the skip-list and whose
body size is at most the pool-eligibility threshold and at most the
configured max body size, the body byte sequence sent to the WAF and the
body byte sequence visible to the backend after hand-off are identical and
equal to the original inbound body, regardless of whether the pooled-buffer
path or the ad-hoc allocation path captured it (the statement quantifies
over the previous pooled-buffer contents and over `usePool`'s choice, which
is determined by the Content-Length header). -/
theorem c1_body_roundtrip (a : Modsecurity) (unhealthyWaf : Bool)
    (poolPrev : List Byte) (req : Request) (waf : WafResult)
    (hskip : ignoresBody a req.method = false)
    (_hpool : (req.body.length : Int) ≤ a.maxBodySizeBytesForPool)
    (hmax : (req.body.length : Int) ≤ a.maxBodySizeBytes) :
    (∀ b, (serveHTTP a unhealthyWaf poolPrev req waf).wafSent = some b →
       b = some req.body) ∧
    (∀ r, (serveHTTP a unhealthyWaf poolPrev req waf).outcome = .backend r →
       r.body = req.body) := by
  have hnot : ¬(0 < a.maxBodySizeBytes ∧
      a.maxBodySizeBytes < (req.body.length : Int)) := by
    rintro ⟨-, h1⟩
    omega
  by_cases hws : isWebsocket req
  · constructor
    · intro b hb
      simp [serveHTTP, hws] at hb
    · intro r hr
      simp [serveHTTP, hws] at hr
      subst hr
      rfl
  · cases unhealthyWaf with
    | true =>
      constructor
      · intro b hb
        simp [serveHTTP, hws] at hb
      · intro r hr
        simp only [serveHTTP, hws, Bool.false_eq_true, if_false, if_true,
          Outcome.backend.injEq] at hr
        subst hr
        rfl
    | false =>
      have hdeny : (a.ignoreBodyForVerbsDeny && ignoresBody a req.method &&
          decide (req.body ≠ [])) = false := by
        simp [hskip]
      have hcap := captureBody_ok a poolPrev req hskip hnot
      rw [serveHTTP_captured a poolPrev req waf _ _
        (by simp [hws]) hdeny hcap]
      constructor
      · intro b hb
        rw [serveWaf_wafSent] at hb
        exact (Option.some.injEq _ _ ▸ hb).symm ▸ rfl
      · intro r hr
        exact serveWaf_backend_body a false req (some req.body) waf r hr

/-- Witness for C1 at a concrete input: a two-byte `POST` under `sampleCfg`
with stale pool contents; the WAF saw exactly the original body. -/
theorem c1_body_roundtrip_witness :
    (some [1, 2] : Option (List Byte)) = some samplePost.body :=
  (c1_body_roundtrip sampleCfg false [9, 9] samplePost (.response 200 [] [])
    (by decide) (by decide) (by decide)).1 (some [1, 2]) (by decide)

/-- C2: for every request for which the WAF round-trip succeeds, a status
code `≥ 400` relays the WAF's response (so the backend is never invoked),
and a status code `< 400` (3xx included) restores the captured body onto the
inbound request and invokes the backend; the 400 threshold is the sole
classification rule.  The hypotheses are the preconditions of "the round-trip
succeeds": the request is not a websocket upgrade, the tracker is healthy,
strict validation did not reject it, and the body was not over the cap. -/
theorem c2_verdict_threshold (a : Modsecurity) (poolPrev : List Byte)
    (req : Request) (status : Nat) (respHeaders : Header) (respBody : List Byte)
    (hws : isWebsocket req = false)
    (hdeny : (a.ignoreBodyForVerbsDeny && ignoresBody a req.method &&
              decide (req.body ≠ [])) = false)
    (hcap : captureBody a poolPrev req ≠ .tooLarge) :
    (400 ≤ status →
      (serveHTTP a false poolPrev req
          (.response status respHeaders respBody)).outcome =
        .relay status respHeaders respBody) ∧
    (status < 400 →
      ∃ r, (serveHTTP a false poolPrev req
              (.response status respHeaders respBody)).outcome = .backend r ∧
        ∀ p bytes, captureBody a poolPrev req = .captured p bytes →
          r.body = bytes) := by
  cases hc : captureBody a poolPrev req with
  | tooLarge => exact absurd hc hcap
  | skipped =>
    rw [serveHTTP_skipped a poolPrev req _ hws hdeny hc]
    constructor
    · intro h4
      simp [serveWaf, if_pos h4]
    · intro h4
      refine ⟨{ req with body := req.body }, ?_, ?_⟩
      · simp [serveWaf, Nat.not_le.mpr h4]
      · intro p bytes hb
        simp at hb
  | captured p bytes =>
    rw [serveHTTP_captured a poolPrev req _ p bytes hws hdeny hc]
    constructor
    · intro h4
      simp [serveWaf, if_pos h4]
    · intro h4
      refine ⟨{ req with body := bytes }, ?_, ?_⟩
      · simp [serveWaf, Nat.not_le.mpr h4]
      · intro p' bytes' hb
        simp only [CaptureResult.captured.injEq] at hb
        exact hb.2

/-- Witness for C2 at concrete inputs: a 403 verdict is relayed. -/
theorem c2_verdict_threshold_witness :
    (serveHTTP sampleCfg false [] samplePost
        (.response 403 [("A", ["v"])] [7])).outcome =
      .relay 403 [("A", ["v"])] [7] :=
  (c2_verdict_threshold sampleCfg [] samplePost 403 [("A", ["v"])] [7]
    (by decide) (by decide) (by decide)).1 (by omega)

/-- C6: for every request whose body size equals the configured max body
size (max `> 0`), the middleware's own size-cap rejection (its `http.Error`
with status 413) never fires: the cap is boundary-inclusive.  (`httpError`
is the middleware's own error writer; a WAF block response relayed by
`forwardResponse` is the distinct `relay` outcome.) -/
theorem c6_boundary_inclusive (a : Modsecurity) (u : Bool)
    (poolPrev : List Byte) (req : Request) (waf : WafResult)
    (_h0 : 0 < a.maxBodySizeBytes)
    (heq : (req.body.length : Int) = a.maxBodySizeBytes) :
    (serveHTTP a u poolPrev req waf).outcome ≠ .httpError 413 := by
  unfold serveHTTP
  split
  · simp
  · split
    · simp
    · split
      · simp
      · have hcap : ∀ res, captureBody a poolPrev req = res →
            res = .skipped ∨ ∃ p bytes, res = .captured p bytes := by
          intro res hres
          unfold captureBody at hres
          split at hres
          · exact Or.inl hres.symm
          · have hex : (decide (0 < a.maxBodySizeBytes) &&
                decide (a.maxBodySizeBytes < (req.body.length : Int))) = false := by
              have : ¬ a.maxBodySizeBytes < (req.body.length : Int) := by omega
              simp [this]
            rw [hex] at hres
            split at hres <;> simp at hres <;>
              exact Or.inr ⟨_, _, hres.symm⟩
        rcases hcap _ rfl with hsk | ⟨p, bytes, hcp⟩
        · rw [hsk]
          exact serveWaf_ne_413 a u req none waf
        · rw [hcp]
          exact serveWaf_ne_413 a u req (some bytes) waf

/-- Witness for C6 at a concrete input: a 4-byte body with a 4-byte cap is
not rejected. -/
theorem c6_boundary_inclusive_witness :
    (serveHTTP sampleCfg false [] { samplePost with body := [1, 2, 3, 4] }
        (.response 200 [] [])).outcome ≠ .httpError 413 :=
  c6_boundary_inclusive sampleCfg false [] _ _ (by decide) (by decide)

/-- A configuration with a 1-byte body cap, `GET` skip-listed and the
diagnostic header configured: used to exhibit requests whose oversized body
is never read. -/
def tinyCapCfg : Modsecurity :=
  { modSecurityUrl := "http://waf", unhealthyWafBackOffPeriodSecs := 0,
    modSecurityStatusRequestHeader := "X-Waf-Status", maxBodySizeBytes := 1,
    maxBodySizeBytesForPool := 1, ignoreBodyForVerbs := ["GET"],
    ignoreBodyForVerbsDeny := false }

/-- A `GET` carrying a two-byte body (over `tinyCapCfg`'s 1-byte cap). -/
def bigGet : Request :=
  { method := "GET", requestURI := "/", headers := [], body := [97, 98] }

/-- A `POST` carrying a two-byte body and a websocket upgrade header. -/
def bigWsPost : Request :=
  { method := "POST", requestURI := "/",
    headers := [("Upgrade", ["websocket"])], body := [97, 98] }

/-- A plain `POST` carrying a two-byte body. -/
def bigPost : Request :=
  { method := "POST", requestURI := "/", headers := [], body := [97, 98] }

/-- Counterexample to C3 as stated: three requests whose body size (2)
strictly exceeds the configured max body size (1 > 0) yet which are handed
to the backend instead of being answered 413 — a skip-listed `GET` (its body
is never read), a websocket upgrade (bypasses all WAF processing), and any
request while the tracker is unhealthy (degraded-mode bypass). -/
theorem c3_counterexample :
    (0 < tinyCapCfg.maxBodySizeBytes ∧
     tinyCapCfg.maxBodySizeBytes < (bigGet.body.length : Int) ∧
     (serveHTTP tinyCapCfg false [] bigGet (.response 200 [] [])).outcome =
       .backend bigGet) ∧
    ((serveHTTP tinyCapCfg false [] bigWsPost (.response 200 [] [])).outcome =
       .backend bigWsPost) ∧
    ((serveHTTP tinyCapCfg true [] bigPost (.response 200 [] [])).outcome =
       .backend { bigPost with headers := [("X-Waf-Status", ["unhealthy"])] }) := by
  refine ⟨⟨by decide, by decide, by decide⟩, by decide, by decide⟩

/-- C3 (amended): for every request that reaches the body-capture step — not
a websocket upgrade, tracker healthy, method not in the skip-list — with
body size strictly greater than the configured max body size (max `> 0`),
the response is exactly the middleware's 413, the backend is never invoked,
no body data is forwarded to the WAF or the backend (no outbound WAF request
is sent at all), and the diagnostic header, if configured, is set to
`"blocked"`. -/
theorem c3_amended (a : Modsecurity) (poolPrev : List Byte) (req : Request)
    (waf : WafResult)
    (hws : isWebsocket req = false)
    (hskip : ignoresBody a req.method = false)
    (h0 : 0 < a.maxBodySizeBytes)
    (hbig : a.maxBodySizeBytes < (req.body.length : Int)) :
    (serveHTTP a false poolPrev req waf).outcome = .httpError 413 ∧
    (serveHTTP a false poolPrev req waf).wafSent = none ∧
    (a.modSecurityStatusRequestHeader ≠ "" →
      Header.get (serveHTTP a false poolPrev req waf).reqHeaders
        a.modSecurityStatusRequestHeader = "blocked") := by
  have hcap := captureBody_tooLarge a poolPrev req hskip h0 hbig
  have hred : serveHTTP a false poolPrev req waf =
      { outcome := .httpError 413, wafSent := none,
        reqHeaders :=
          if a.modSecurityStatusRequestHeader ≠ "" then
            Header.set req.headers a.modSecurityStatusRequestHeader "blocked"
          else req.headers,
        unhealthyAfter := false, timerArmed := false } := by
    unfold serveHTTP
    rw [if_neg (by simp [hws]), if_neg (by simp),
      if_neg (by simp [hskip]), hcap]
  rw [hred]
  refine ⟨rfl, rfl, ?_⟩
  intro hname
  simp only [if_pos hname]
  exact get_set_self req.headers a.modSecurityStatusRequestHeader "blocked"

/-- Witness for the amended C3 at a concrete input: an oversized `POST`
under `tinyCapCfg` is answered 413. -/
theorem c3_amended_witness :
    (serveHTTP tinyCapCfg false [] bigPost .transportFailure).outcome =
      .httpError 413 :=
  (c3_amended tinyCapCfg [] bigPost .transportFailure
    (by decide) (by decide) (by decide) (by decide)).1

/-- Counterexample to C4 as stated: with back-off disabled (period 0) and a
diagnostic header configured, a transport failure yields 502 but the request
is never tagged `"error"` — the fail-closed branch (lines 303-305) writes no
diagnostic header. -/
theorem c4_counterexample :
    sampleCfg.unhealthyWafBackOffPeriodSecs = 0 ∧
    sampleCfg.modSecurityStatusRequestHeader = "X-Waf-Status" ∧
    (serveHTTP sampleCfg false [] samplePost .transportFailure).outcome =
      .httpError 502 ∧
    Header.vals (serveHTTP sampleCfg false [] samplePost
        .transportFailure).reqHeaders "X-Waf-Status" = [] := by
  refine ⟨rfl, rfl, by decide, by decide⟩

/-- C4 (amended): for every request on which sending the outbound WAF
request fails at the transport level: if a non-zero back-off period is
configured, the request is tagged `"error"` (when a diagnostic header is
configured), the tracker becomes unhealthy with the recovery timer armed,
and the request is forwarded to the backend (fail-open); if the back-off
period is 0, the client receives 502, the backend is never invoked, and no
diagnostic tag is written (the request headers are left unchanged). -/
theorem c4_amended (a : Modsecurity) (poolPrev : List Byte) (req : Request)
    (hws : isWebsocket req = false)
    (hdeny : (a.ignoreBodyForVerbsDeny && ignoresBody a req.method &&
              decide (req.body ≠ [])) = false)
    (hcap : captureBody a poolPrev req ≠ .tooLarge) :
    (0 < a.unhealthyWafBackOffPeriodSecs →
      (∃ r, (serveHTTP a false poolPrev req .transportFailure).outcome =
         .backend r) ∧
      (serveHTTP a false poolPrev req .transportFailure).unhealthyAfter = true ∧
      (serveHTTP a false poolPrev req .transportFailure).timerArmed = true ∧
      (a.modSecurityStatusRequestHeader ≠ "" →
        Header.get (serveHTTP a false poolPrev req
            .transportFailure).reqHeaders
          a.modSecurityStatusRequestHeader = "error")) ∧
    (a.unhealthyWafBackOffPeriodSecs ≤ 0 →
      (serveHTTP a false poolPrev req .transportFailure).outcome =
        .httpError 502 ∧
      (serveHTTP a false poolPrev req .transportFailure).reqHeaders =
        req.headers) := by
  have hstep : ∀ body, serveWaf a false req body .transportFailure =
      (if 0 < a.unhealthyWafBackOffPeriodSecs then
        { outcome := .backend { req with
              headers :=
                if a.modSecurityStatusRequestHeader ≠ "" then
                  Header.set req.headers a.modSecurityStatusRequestHeader "error"
                else req.headers,
              body := body.getD req.body },
          wafSent := some body,
          reqHeaders :=
            if a.modSecurityStatusRequestHeader ≠ "" then
              Header.set req.headers a.modSecurityStatusRequestHeader "error"
            else req.headers,
          unhealthyAfter := true, timerArmed := true }
      else
        { outcome := .httpError 502, wafSent := some body,
          reqHeaders := req.headers, unhealthyAfter := false,
          timerArmed := false }) := by
    intro body
    simp only [serveWaf, Bool.not_false, if_true]
    split
    · cases body <;> rfl
    · rfl
  cases hc : captureBody a poolPrev req with
  | tooLarge => exact absurd hc hcap
  | skipped =>
    rw [serveHTTP_skipped a poolPrev req _ hws hdeny hc, hstep none]
    constructor
    · intro hpos
      rw [if_pos hpos]
      refine ⟨⟨_, rfl⟩, rfl, rfl, ?_⟩
      intro hname
      simp only [if_pos hname]
      exact get_set_self _ _ _
    · intro hnonpos
      rw [if_neg (by omega)]
      exact ⟨rfl, rfl⟩
  | captured p bytes =>
    rw [serveHTTP_captured a poolPrev req _ p bytes hws hdeny hc, hstep (some bytes)]
    constructor
    · intro hpos
      rw [if_pos hpos]
      refine ⟨⟨_, rfl⟩, rfl, rfl, ?_⟩
      intro hname
      simp only [if_pos hname]
      exact get_set_self _ _ _
    · intro hnonpos
      rw [if_neg (by omega)]
      exact ⟨rfl, rfl⟩

/-- Witness for the amended C4: with a 30-second back-off configured, a
transport failure tags the concrete request `"error"`. -/
theorem c4_amended_witness :
    Header.get (serveHTTP { sampleCfg with unhealthyWafBackOffPeriodSecs := 30 }
        false [] samplePost .transportFailure).reqHeaders "X-Waf-Status" =
      "error" :=
  ((c4_amended { sampleCfg with unhealthyWafBackOffPeriodSecs := 30 } []
      samplePost (by decide) (by decide) (by decide)).1 (by decide)).2.2.2
    (by decide)

/-- A configuration with a 1-byte pool threshold and an 8-byte body cap. -/
def poolCfg : Modsecurity :=
  { modSecurityUrl := "http://waf", unhealthyWafBackOffPeriodSecs := 0,
    modSecurityStatusRequestHeader := "", maxBodySizeBytes := 8,
    maxBodySizeBytesForPool := 1, ignoreBodyForVerbs := ["GET"],
    ignoreBodyForVerbsDeny := false }

/-- A `POST` with a two-byte body and no `Content-Length` header. -/
def noClPost : Request :=
  { method := "POST", requestURI := "/", headers := [], body := [7, 8] }

/-- Counterexample to C5 as stated: a request with no declared
`Content-Length` whose actual body (2 bytes) exceeds the pool threshold
(1 byte) is still captured on the pooled-buffer path — `usePool` defaults to
`true` when the header is absent, it does not fall back to ad-hoc
allocation. -/
theorem c5_counterexample :
    Header.get noClPost.headers "Content-Length" = "" ∧
    poolCfg.maxBodySizeBytesForPool < (noClPost.body.length : Int) ∧
    usePool poolCfg noClPost = true ∧
    captureBody poolCfg [55] noClPost = .captured true noClPost.body := by
  refine ⟨rfl, by decide, by decide, by decide⟩

/-- C5 (amended): the Body Capture Unit uses a pooled buffer exactly when
the declared `Content-Length` is absent, does not parse as an int64, or
parses to a value at most the pool-eligibility threshold; it reads into a
freshly allocated byte sequence exactly when `Content-Length` is present,
parses, and exceeds the threshold.  (`captureBody` takes the pooled branch
precisely when `usePool` is `true`, recorded in the `pooled` flag.) -/
theorem c5_amended (a : Modsecurity) (poolPrev : List Byte) (req : Request) :
    (usePool a req = true ↔
      (Header.get req.headers "Content-Length" = "" ∨
       parseInt64 (Header.get req.headers "Content-Length") = none ∨
       ∃ n, parseInt64 (Header.get req.headers "Content-Length") = some n ∧
         n ≤ a.maxBodySizeBytesForPool)) ∧
    (∀ pooled bytes, captureBody a poolPrev req = .captured pooled bytes →
       pooled = usePool a req) := by
  constructor
  · by_cases h : Header.get req.headers "Content-Length" = ""
    · simp [usePool, h]
    · cases hp : parseInt64 (Header.get req.headers "Content-Length") with
      | none => simp [usePool, h, hp]
      | some n => simp [usePool, h, hp]
  · intro pooled bytes hb
    unfold captureBody at hb
    split at hb
    · exact absurd hb (by simp)
    · split at hb
      · rename_i hup
        split at hb
        · exact absurd hb (by simp)
        · simp only [CaptureResult.captured.injEq] at hb
          rw [hup]
          exact hb.1.symm
      · rename_i hup
        split at hb
        · exact absurd hb (by simp)
        · simp only [CaptureResult.captured.injEq] at hb
          rw [Bool.not_eq_true] at hup
          rw [hup]
          exact hb.1.symm

/-- Witness for the amended C5 at a concrete input: the pool-path capture
of `noClPost` matches `usePool = true`. -/
theorem c5_amended_witness : (true : Bool) = usePool poolCfg noClPost :=
  (c5_amended poolCfg [55] noClPost).2 true noClPost.body (by decide)

/-- A configuration with strict body validation enabled for a skip-listed
`GET`. -/
def denyCfg : Modsecurity :=
  { modSecurityUrl := "http://waf", unhealthyWafBackOffPeriodSecs := 0,
    modSecurityStatusRequestHeader := "", maxBodySizeBytes := 8,
    maxBodySizeBytesForPool := 8, ignoreBodyForVerbs := ["GET"],
    ignoreBodyForVerbsDeny := true }

/-- A skip-listed `GET` with a body and a websocket upgrade header. -/
def wsGet : Request :=
  { method := "GET", requestURI := "/",
    headers := [("Upgrade", ["websocket"])], body := [1] }

/-- A skip-listed `GET` with a body and no special headers. -/
def plainGet : Request :=
  { method := "GET", requestURI := "/", headers := [], body := [1] }

/-- Counterexample to C7 as stated: two requests whose method is in the
skip-list, with strict validation enabled and a nonempty body, that are
nevertheless forwarded to the backend instead of being answered 400 — one
carrying a websocket upgrade (bypasses all WAF processing before the
strict-validation check), and one processed while the tracker is unhealthy
(degraded-mode bypass also precedes the check). -/
theorem c7_counterexample :
    (denyCfg.ignoreBodyForVerbsDeny = true ∧
     ignoresBody denyCfg wsGet.method = true ∧
     wsGet.body ≠ [] ∧
     (serveHTTP denyCfg false [] wsGet (.response 200 [] [])).outcome =
       .backend wsGet) ∧
    ((serveHTTP denyCfg true [] plainGet (.response 200 [] [])).outcome =
       .backend plainGet) := by
  refine ⟨⟨rfl, by decide, by decide, by decide⟩, by decide⟩

/-- C7 (amended): for every non-websocket request processed while the
tracker is healthy whose method is in the skip-list, with strict validation
enabled and a nonempty body on the stream, the response is exactly 400 and
no outbound WAF request is sent (so neither the WAF nor the backend is ever
invoked). -/
theorem c7_amended (a : Modsecurity) (poolPrev : List Byte) (req : Request)
    (waf : WafResult)
    (hws : isWebsocket req = false)
    (hdeny : a.ignoreBodyForVerbsDeny = true)
    (hskip : ignoresBody a req.method = true)
    (hbody : req.body ≠ []) :
    (serveHTTP a false poolPrev req waf).outcome = .httpError 400 ∧
    (serveHTTP a false poolPrev req waf).wafSent = none := by
  have hred : serveHTTP a false poolPrev req waf =
      { outcome := .httpError 400, wafSent := none, reqHeaders := req.headers,
        unhealthyAfter := false, timerArmed := false } := by
    unfold serveHTTP
    rw [if_neg (by simp [hws]), if_neg (by simp),
      if_pos (by simp [hdeny, hskip, hbody])]
  rw [hred]
  exact ⟨rfl, rfl⟩

/-- Witness for the amended C7 at a concrete input: a plain skip-listed
`GET` with a body under `denyCfg` is answered 400. -/
theorem c7_amended_witness :
    (serveHTTP denyCfg false [] plainGet (.response 200 [] [])).outcome =
      .httpError 400 :=
  (c7_amended denyCfg [] plainGet (.response 200 [] [])
    (by decide) rfl (by decide) (by decide)).1

/-- Keys not named by the copied response headers keep their values on the
writer. -/
theorem vals_fold_not_mem (L : Header) (d : Header) (k : String)
    (hk : k ∉ L.map Prod.fst) :
    Header.vals (L.foldl (fun dst kv => Header.store dst kv.1 kv.2) d) k =
      Header.vals d k := by
  induction L generalizing d with
  | nil => rfl
  | cons kv rest ih =>
    simp only [List.map_cons, List.mem_cons, not_or] at hk
    simp only [List.foldl_cons]
    rw [ih _ hk.2, vals_store_other d kv.1 k kv.2 hk.1]

/-- Keys named by the copied response headers end up with exactly the
response's values. -/
theorem vals_fold_mem (L : Header) (d : Header) (k : String) (vs : List String)
    (hnd : (L.map Prod.fst).Nodup) (hmem : (k, vs) ∈ L) :
    Header.vals (L.foldl (fun dst kv => Header.store dst kv.1 kv.2) d) k =
      vs := by
  induction L generalizing d with
  | nil => exact absurd hmem (by simp)
  | cons kv rest ih =>
    simp only [List.map_cons, List.nodup_cons] at hnd
    simp only [List.foldl_cons]
    rcases List.mem_cons.mp hmem with heq | hmem2
    · subst heq
      rw [vals_fold_not_mem rest _ k hnd.1]
      exact vals_store_self d k vs
    · exact ih _ hnd.2 hmem2

/-- C8: for every WAF block response handed to the Response Relay, every
response header is copied onto the client writer replacing (not appending
to) any same-named values already present, every other writer header is left
untouched, the status code written is identical to the WAF response's, and
the body bytes written are exactly the WAF response's body bytes.  The keys
of the WAF response's header map are distinct (it is a Go map). -/
theorem c8_relay_lossless (respStatus : Nat) (respHeaders : Header)
    (respBody : List Byte) (rwHeaders : Header)
    (hnd : (respHeaders.map Prod.fst).Nodup) :
    (forwardResponse respStatus respHeaders respBody rwHeaders).2.1 =
      respStatus ∧
    (forwardResponse respStatus respHeaders respBody rwHeaders).2.2 =
      respBody ∧
    (∀ k vs, (k, vs) ∈ respHeaders →
      Header.vals (forwardResponse respStatus respHeaders respBody
          rwHeaders).1 k = vs) ∧
    (∀ k, k ∉ respHeaders.map Prod.fst →
      Header.vals (forwardResponse respStatus respHeaders respBody
          rwHeaders).1 k = Header.vals rwHeaders k) := by
  refine ⟨rfl, rfl, ?_, ?_⟩
  · intro k vs hmem
    exact vals_fold_mem respHeaders rwHeaders k vs hnd hmem
  · intro k hk
    exact vals_fold_not_mem respHeaders rwHeaders k hk

/-- Witness for C8 at a concrete input: the relayed value replaces the
writer's previous value for the same key. -/
theorem c8_relay_lossless_witness :
    Header.vals (forwardResponse 403 [("A", ["x"]), ("B", ["y", "z"])] [1]
        [("A", ["old"]), ("C", ["keep"])]).1 "A" = ["x"] :=
  (c8_relay_lossless 403 [("A", ["x"]), ("B", ["y", "z"])] [1]
    [("A", ["old"]), ("C", ["keep"])] (by decide)).2.2.1 "A" ["x"] (by decide)

/-- In every reachable health state the pending-timer count is 1 exactly
when the tracker is unhealthy, and 0 otherwise. -/
theorem healthInv (s : HealthState) (h : HealthReachable s) :
    s.pendingTimers = if s.unhealthyWaf then 1 else 0 := by
  induction h with
  | init => rfl
  | step hs st ih =>
    cases st with
    | reportFailureArm h2 =>
      rw [h2] at ih
      simp only [Bool.false_eq_true, if_false] at ih
      simp [ih]
    | reportFailureNoop h2 => exact ih
    | timerFires h2 =>
      dsimp only
      simp only [Bool.false_eq_true, if_false]
      split at ih <;> omega

/-- C9: in every reachable state of the health tracker at most one pending
recovery timer is armed, and this is preserved by every step.  Only the
`reportFailureArm` step — the one performing the Healthy-to-Unhealthy
transition — arms a timer; a failure report while already unhealthy is the
`reportFailureNoop` step, arming none; and the `timerFires` step clears the
flag unconditionally. -/
theorem c9_single_recovery_timer (s : HealthState) (hr : HealthReachable s) :
    s.pendingTimers ≤ 1 ∧ ∀ t, HealthStep s t → t.pendingTimers ≤ 1 := by
  have hinv := healthInv s hr
  constructor
  · split at hinv <;> omega
  · intro t st
    have hinv2 := healthInv t (HealthReachable.step hr st)
    split at hinv2 <;> omega

/-- Witness for C9 at a concrete reachable state: after one failure report
from the initial state, exactly one timer is pending. -/
theorem c9_single_recovery_timer_witness :
    ({ unhealthyWaf := true, pendingTimers := 1 } : HealthState).pendingTimers
      ≤ 1 :=
  (c9_single_recovery_timer { unhealthyWaf := true, pendingTimers := 1 }
    (HealthReachable.step HealthReachable.init
      (HealthStep.reportFailureArm initialHealth rfl))).1

/-- A `POST` whose `Upgrade` header value is `"WebSocket"` (wrong casing). -/
def casedWsPost : Request :=
  { method := "POST", requestURI := "/",
    headers := [("Upgrade", ["WebSocket"])], body := [1] }

/-- C10: websocket detection is an exact, case-sensitive match — a request
is bypassed exactly when some value of its `Upgrade` header equals the
literal lowercase `"websocket"`, in which case it goes straight to the
backend with no WAF contact and no header mutation; otherwise the request
enters the full analysis pipeline, and (when nothing else intervenes: the
tracker healthy, no strict-validation rejection, body within the cap) the
WAF is contacted. -/
theorem c10_websocket_case_sensitive (a : Modsecurity) (u : Bool)
    (poolPrev : List Byte) (req : Request) (waf : WafResult) :
    (isWebsocket req = true ↔
      "websocket" ∈ Header.vals req.headers "Upgrade") ∧
    (isWebsocket req = true →
      serveHTTP a u poolPrev req waf =
        { outcome := .backend req, wafSent := none, reqHeaders := req.headers,
          unhealthyAfter := u, timerArmed := false }) ∧
    (isWebsocket req = false → u = false →
      (a.ignoreBodyForVerbsDeny && ignoresBody a req.method &&
       decide (req.body ≠ [])) = false →
      captureBody a poolPrev req ≠ .tooLarge →
      (serveHTTP a u poolPrev req waf).wafSent ≠ none) := by
  refine ⟨?_, ?_, ?_⟩
  · simp [isWebsocket, List.any_eq_true, beq_iff_eq]
  · intro h
    simp [serveHTTP, h]
  · intro hws hu hdeny hcap
    subst hu
    cases hc : captureBody a poolPrev req with
    | tooLarge => exact absurd hc hcap
    | skipped =>
      rw [serveHTTP_skipped a poolPrev req waf hws hdeny hc, serveWaf_wafSent]
      simp
    | captured p bytes =>
      rw [serveHTTP_captured a poolPrev req waf p bytes hws hdeny hc,
        serveWaf_wafSent]
      simp

/-- Witness for C10 at concrete inputs: the lowercase value is bypassed with
no WAF contact; the `"WebSocket"` casing is not bypassed and reaches the
WAF. -/
theorem c10_websocket_case_sensitive_witness :
    serveHTTP sampleCfg false [] bigWsPost (.response 200 [] []) =
      { outcome := .backend bigWsPost, wafSent := none,
        reqHeaders := bigWsPost.headers, unhealthyAfter := false,
        timerArmed := false } ∧
    (serveHTTP sampleCfg false [] casedWsPost
        (.response 200 [] [])).wafSent ≠ none :=
  ⟨(c10_websocket_case_sensitive sampleCfg false [] bigWsPost
      (.response 200 [] [])).2.1 (by decide),
   (c10_websocket_case_sensitive sampleCfg false [] casedWsPost
      (.response 200 [] [])).2.2 (by decide) rfl (by decide) (by decide)⟩

end ModsecPlugin
